import Mathlib

/-!
Shallow embedding of the LocalGhost authorization kernel
(`src/localghost/auth/tokens.py`, `src/localghost/auth/permissions.py`,
`src/localghost/auth/middleware.py`, `src/localghost/consent/handler.py`).

Conventions of the embedding:
* Clock values (`time.time()` and `datetime.now(timezone.utc)`) are a single
  rational-number epoch clock passed explicitly as `now`.  The store persists
  timestamps as ISO-8601 text; ISO text round-trips and compares consistently
  with the underlying instant, so timestamps are kept as rationals.
* Fernet authenticated encryption is modelled by a `TokenEnv`: an encoding
  function from (key, payload) pairs to ciphertext strings and a decryption
  oracle back.  Decryption under key `k` of a ciphertext produced under `k2`
  succeeds exactly when `k = k2`, matching `InvalidToken` behaviour.  Theorems
  that need the library round trip `decrypt (encrypt x) = x` take it as a
  pointwise hypothesis.
* Python `str.startswith`, slicing, `int()`, truthiness and `json.dumps` of a
  string list are reproduced by the `py*` functions below.  `pyInt` covers
  optional ASCII whitespace, one sign and underscore-separated decimal digits;
  `pyJsonEscape` covers the quote and backslash escapes (control-character
  escapes are omitted; no theorem depends on them).
* A Python exception escaping the middleware is an `Except.error`; request
  state attachment values keep their dynamic type via `PyVal` (`str` vs
  `list`), since `request.state.permissions` receives a JSON string on the
  stored-grant path and a decoded list on the token path.
* `hashlib.sha256(...).hexdigest()` is kept as an uninterpreted function
  parameter `hash` of the middleware configuration; no claim depends on the
  value of the digest, only on where the derivation happens.
-/

namespace LocalGhost

/-- Model of Python `str.startswith`. -/
def pyStartsWith (s p : String) : Bool :=
  p.toList.isPrefixOf s.toList

/-- Model of Python string slicing `s[n:]`. -/
def pyDrop (s : String) (n : Nat) : String :=
  ⟨s.toList.drop n⟩

/-- Model of Python string slicing `s[:n]`. -/
def pyTake (s : String) (n : Nat) : String :=
  ⟨s.toList.take n⟩

/-- ASCII whitespace stripped by Python `int()` before parsing. -/
def pyIsSpace (c : Char) : Bool :=
  c = ' ' || c = '\t' || c = '\n' || c = '\r'

/-- Decimal digit test. -/
def pyIsDigit (c : Char) : Bool :=
  '0' ≤ c && c ≤ '9'

/-- Value of an unsigned digit run once underscores are removed. -/
def pyDigitsVal (cs : List Char) : Nat :=
  cs.foldl (fun a c => a * 10 + (c.toNat - 48)) 0

/-- Parse the unsigned core of a Python `int()` literal: nonempty, only
digits and underscores, beginning and ending with a digit, and never two
underscores in a row (so every underscore sits between digits). -/
def pyIntCore (cs : List Char) : Option Nat :=
  if (!cs.isEmpty)
      && cs.all (fun c => pyIsDigit c || c = '_')
      && (cs.head?.elim false pyIsDigit)
      && (cs.getLast?.elim false pyIsDigit)
      && ((cs.zip cs.tail).all fun p => !(p.1 = '_' && p.2 = '_')) then
    some (pyDigitsVal (cs.filter fun c => c ≠ '_'))
  else
    none

/-- Model of Python `int(s)` on a decimal string: strip surrounding
whitespace, accept one optional sign, then the digit core; `none` models a
raised `ValueError`. -/
def pyInt (s : String) : Option Int :=
  let cs := ((s.toList.dropWhile pyIsSpace).reverse.dropWhile pyIsSpace).reverse
  match cs with
  | '+' :: rest => (pyIntCore rest).map Int.ofNat
  | '-' :: rest => (pyIntCore rest).map (fun n => -(n : Int))
  | _ => (pyIntCore cs).map Int.ofNat

/-- Escape of one character inside a JSON string literal (`json.dumps`). -/
def pyJsonEscapeChar (c : Char) : String :=
  if c = '\\' then "\\\\"
  else if c = '"' then "\\\""
  else String.singleton c

/-- Escape of a whole JSON string body. -/
def pyJsonEscape (s : String) : String :=
  String.join (s.toList.map pyJsonEscapeChar)

/-- Model of `json.dumps(l)` for a list of strings, with Python's default
`", "` separator. -/
def pyJsonDumpsStrList (l : List String) : String :=
  "[" ++ String.intercalate ", " (l.map fun s => "\"" ++ pyJsonEscape s ++ "\"") ++ "]"

/-- Truthiness of an optional float, as in `if duration_hours:`. -/
def pyTruthy (o : Option ℚ) : Bool :=
  match o with
  | none => false
  | some d => decide (d ≠ 0)

/-! ## Token manager (`auth/tokens.py`) -/

/-- Token payload data (`TokenPayload`). -/
structure TokenPayload where
  client_id : String
  endpoint : String
  permissions : List String
  issued_at : ℚ
  expires_at : Option ℚ
deriving DecidableEq, Repr

/-- Fernet model: `enc` is encryption of a payload under a key into a
ciphertext string, `dec` the global decryption oracle recovering the key the
ciphertext was produced under together with its payload (`none` models
`InvalidToken` / malformed JSON). -/
structure TokenEnv where
  enc : Nat × TokenPayload → String
  dec : String → Option (Nat × TokenPayload)

/-- Model of `TokenManager.generate_token`: assemble the payload at clock `now`, with
`expires_at = now + expires_in_hours * 3600` when the duration is not `None`,
and encrypt it under `key`. -/
def generateToken (env : TokenEnv) (key : Nat) (now : ℚ) (client_id endpoint : String)
    (permissions : List String) (expires_in_hours : Option ℚ) : String :=
  let expires_at := expires_in_hours.map fun h => now + h * 3600
  env.enc (key, { client_id := client_id, endpoint := endpoint,
                  permissions := permissions, issued_at := now, expires_at := expires_at })

/-- Model of `TokenManager.validate_token`: decrypt under `key` (failing when the
ciphertext was produced under a different key), then reject when
`now > expires_at` for a non-null expiry. -/
def validateToken (env : TokenEnv) (key : Nat) (now : ℚ) (token : String) :
    Option TokenPayload :=
  match env.dec token with
  | none => none
  | some (k, payload) =>
    if k = key then
      match payload.expires_at with
      | some e => if now > e then none else some payload
      | none => some payload
    else none

/-- Model of `TokenManager.generate_client_id`: hash `name` or `name:pid` and keep the
first 16 hex characters; the digest itself is the uninterpreted `hash`. -/
def generateClientId (hash : String → String) (program_name : String) (pid : Option Int) :
    String :=
  let data := match pid with
    | some p => program_name ++ ":" ++ toString p
    | none => program_name
  pyTake (hash data) 16

/-! ## Permission store (`auth/permissions.py`) -/

/-- Grant kinds (`GrantType`). -/
inductive GrantType where
  | temporary
  | session
  | timed
  | permanent
deriving DecidableEq, Repr

/-- Textual `.value` of a grant type, as persisted in the `grant_type`
column. -/
def GrantType.value : GrantType → String
  | .temporary => "temporary"
  | .session => "session"
  | .timed => "timed"
  | .permanent => "permanent"

/-- One row of the `permissions` table.  `permissions` holds the raw column
text: the JSON dump of the granted list, never decoded by the source. -/
structure Row where
  id : Nat
  client_id : String
  client_name : Option String
  endpoint : String
  permissions : String
  grant_type : String
  granted_at : ℚ
  expires_at : Option ℚ
  token : Option String
deriving DecidableEq, Repr

/-- One row of the `audit_log` table (the autoincrement id is elided; the
list order carries the append-only history). -/
structure AuditEntry where
  timestamp : ℚ
  client_id : String
  endpoint : String
  action : String
  details : String
deriving DecidableEq, Repr

/-- Database state: the `permissions` table with its autoincrement counter,
and the `audit_log`. -/
structure Store where
  next_id : Nat
  permissions : List Row
  audit : List AuditEntry
deriving DecidableEq, Repr

/-- Freshly initialized database (`PermissionStore.initialize`). -/
def emptyStore : Store :=
  { next_id := 1, permissions := [], audit := [] }

/-- The `WHERE client_id = ? AND endpoint = ?` predicate, also the conflict
target of `UNIQUE(client_id, endpoint)`. -/
def keyPred (c e : String) (r : Row) : Bool :=
  r.client_id == c && r.endpoint == e

/-- Rows of the table matching one `(client_id, endpoint)` pair. -/
def rowsFor (c e : String) (s : Store) : List Row :=
  s.permissions.filter (keyPred c e)

/-- Model of `PermissionStore._log_action`: append one audit row. -/
def logAction (now : ℚ) (c e action details : String) (s : Store) : Store :=
  { s with audit := s.audit ++ [{ timestamp := now, client_id := c, endpoint := e,
                                  action := action, details := details }] }

/-- Details JSON for a `grant` audit entry:
`json.dumps(\x7b"grant_type": value\x7d)`. -/
def grantDetails (v : String) : String :=
  "\x7b\"grant_type\": \"" ++ v ++ "\"\x7d"

/-- Details JSON for a `revoke` audit entry: `json.dumps(\x7b\x7d)`. -/
def emptyDetails : String := "\x7b\x7d"

/-- Arguments of one `grant_permission` call. -/
structure GrantArgs where
  client_id : String
  endpoint : String
  permissions : List String
  grant_type : GrantType
  token : String
  client_name : Option String := none
  duration_hours : Option ℚ := none
deriving Repr

/-- Expiry computed by `grant_permission`: `TIMED` with a truthy duration
gets `now + duration * 3600`, `TEMPORARY` gets `now + 5` minutes, everything
else (including `TIMED` with a falsy duration) gets `NULL`. -/
def grantExpiresAt (now : ℚ) (gt : GrantType) (dur : Option ℚ) : Option ℚ :=
  match gt with
  | .timed => if pyTruthy dur then dur.map (fun d => now + d * 3600) else none
  | .temporary => some (now + 5 * 60)
  | _ => none

/-- The row that one `grant_permission` call inserts. -/
def grantRow (now : ℚ) (g : GrantArgs) (s : Store) : Row :=
  { id := s.next_id, client_id := g.client_id, client_name := g.client_name,
    endpoint := g.endpoint, permissions := pyJsonDumpsStrList g.permissions,
    grant_type := g.grant_type.value, granted_at := now,
    expires_at := grantExpiresAt now g.grant_type g.duration_hours,
    token := some g.token }

/-- Model of `PermissionStore.grant_permission`: compute the expiry, `INSERT OR
REPLACE` the unique `(client_id, endpoint)` row (delete any conflicting row,
insert a fresh one with a fresh id, storing the JSON dump of the permission
list), then append a `grant` audit entry. -/
def grantPermission (now : ℚ) (g : GrantArgs) (s : Store) : Store :=
  let s1 : Store :=
    { s with next_id := s.next_id + 1,
             permissions :=
               s.permissions.filter (fun r => !(keyPred g.client_id g.endpoint r))
                 ++ [grantRow now g s] }
  logAction now g.client_id g.endpoint "grant" (grantDetails g.grant_type.value) s1

/-- Model of `PermissionStore.revoke_permission`: delete the matching rows and append
a `revoke` audit entry. -/
def revokePermission (now : ℚ) (c e : String) (s : Store) : Store :=
  let s1 : Store :=
    { s with permissions := s.permissions.filter (fun r => !(keyPred c e r)) }
  logAction now c e "revoke" emptyDetails s1

/-- The `SELECT * ... WHERE client_id = ? AND endpoint = ?` + `fetchone`. -/
def findRow (c e : String) (rows : List Row) : Option Row :=
  rows.find? (keyPred c e)

/-- Model of `PermissionStore.check_permission`: fetch the unique row; when its
`expires_at` is non-null and elapsed (`now > expires`), lazily evict it via
`revoke_permission` and report `None`; otherwise return the row.  The pair
carries the possibly mutated database. -/
def checkPermission (now : ℚ) (c e : String) (s : Store) : Option Row × Store :=
  match findRow c e s.permissions with
  | none => (none, s)
  | some row =>
    match row.expires_at with
    | some e2 => if now > e2 then (none, revokePermission now c e s) else (some row, s)
    | none => (some row, s)

/-! ## Authorization middleware (`auth/middleware.py`) -/

/-- Value attached to `request.state.permissions`, keeping its Python
dynamic type: the stored-grant branch attaches the raw column string, the
token and consent branches attach a decoded list. -/
inductive PyVal where
  | str (s : String)
  | list (l : List String)
deriving DecidableEq, Repr

/-- Admission outcome of one request (which branch of
`AuthMiddleware.dispatch` produced the response). -/
inductive Outcome where
  | publicPass
  | tokenPass (client_id : String) (permissions : PyVal)
  | storePass (client_id : String) (permissions : PyVal)
  | consentPass (client_id : String) (permissions : PyVal)
  | deny (client_id : String) (endpoint : String)
deriving DecidableEq, Repr

/-- Headers of an inbound request that the middleware consumes. -/
structure Request where
  path : String
  x_client_id : Option String := none
  x_process_name : Option String := none
  x_process_pid : Option String := none
  authorization : Option String := none
deriving Repr

/-- Middleware configuration: the token manager's key, the Fernet model, the
uninterpreted sha256 hex digest, the public path set, and the optional
consent handler.  The handler is modelled as the store transformer
`ConsentHandler.__call__` induces, fed the only request field it reads
(`X-Process-Name`); it returns the approved permission list or `None`. -/
structure MiddlewareCfg where
  key : Nat
  env : TokenEnv
  hash : String → String
  publicPaths : List String := ["/health", "/capabilities", "/docs", "/openapi.json"]
  consent : Option (String → String → Option String → Store → Option (List String) × Store) :=
    none

/-- Fallback branch of `AuthMiddleware._identify_client`: derive the id from
`X-Process-Name` (default `"unknown"`) and `X-Process-PID`; a truthy
non-integer PID raises `ValueError` from `int()`. -/
def identifyByProcess (cfg : MiddlewareCfg) (req : Request) : Except String String :=
  let process_name := req.x_process_name.getD "unknown"
  match req.x_process_pid with
  | some ps =>
    if ps = "" then Except.ok (generateClientId cfg.hash process_name none)
    else
      match pyInt ps with
      | some n => Except.ok (generateClientId cfg.hash process_name (some n))
      | none => Except.error "ValueError"
  | none => Except.ok (generateClientId cfg.hash process_name none)

/-- Model of `AuthMiddleware._identify_client`: a truthy `X-Client-ID` header wins
verbatim, otherwise fall back to the process-derived identity. -/
def identifyClient (cfg : MiddlewareCfg) (req : Request) : Except String String :=
  match req.x_client_id with
  | some cid => if cid = "" then identifyByProcess cfg req else Except.ok cid
  | none => identifyByProcess cfg req

/-- Steps 4-6 of `AuthMiddleware.dispatch`: consult the store (which may
lazily evict), then the consent handler, else deny with the 401 identifiers. -/
def storeStep (cfg : MiddlewareCfg) (now : ℚ) (client_id path : String)
    (processName : Option String) (store : Store) : Except String (Outcome × Store) :=
  let r := checkPermission now client_id path store
  match r.1 with
  | some row => Except.ok (Outcome.storePass client_id (PyVal.str row.permissions), r.2)
  | none =>
    match cfg.consent with
    | some h =>
      let hr := h client_id path processName r.2
      match hr.1 with
      | some perms => Except.ok (Outcome.consentPass client_id (PyVal.list perms), hr.2)
      | none => Except.ok (Outcome.deny client_id path, hr.2)
    | none => Except.ok (Outcome.deny client_id path, r.2)

/-- Bearer-token extraction of steps 2-3 of `AuthMiddleware.dispatch`: the
validated claims, provided the `Authorization` value starts with the exact
`"Bearer "` scheme and the remainder validates. -/
def bearerPayload (cfg : MiddlewareCfg) (now : ℚ) (authHeader : String) :
    Option TokenPayload :=
  if pyStartsWith authHeader "Bearer " then
    validateToken cfg.env cfg.key now (pyDrop authHeader 7)
  else none

/-- Body of `AuthMiddleware.dispatch` after the public-path early return:
derive the client identity (exceptions propagate), honor a bearer token only
when its validated claims carry the derived `client_id`, else fall through
to the stored-grant / consent / deny chain. -/
def nonPublicStep (cfg : MiddlewareCfg) (now : ℚ) (req : Request) (store : Store) :
    Except String (Outcome × Store) :=
  match identifyClient cfg req with
  | Except.error e => Except.error e
  | Except.ok client_id =>
    match bearerPayload cfg now (req.authorization.getD "") with
    | some payload =>
      if payload.client_id = client_id then
        Except.ok (Outcome.tokenPass client_id (PyVal.list payload.permissions), store)
      else
        storeStep cfg now client_id req.path req.x_process_name store
    | none => storeStep cfg now client_id req.path req.x_process_name store

/-- Model of `AuthMiddleware.dispatch`: public paths short-circuit with no auth at
all; everything else goes through the admission chain. -/
def dispatch (cfg : MiddlewareCfg) (now : ℚ) (req : Request) (store : Store) :
    Except String (Outcome × Store) :=
  if cfg.publicPaths.contains req.path || pyStartsWith req.path "/public/" then
    Except.ok (Outcome.publicPass, store)
  else
    nonPublicStep cfg now req store

/-! ## Consent handler (`consent/handler.py`) -/

/-- Result of the consent prompt (`ConsentResult`). -/
inductive ConsentResult where
  | denied
  | allow_once
  | allow_session
  | allow_timed
  | allow_permanent
deriving DecidableEq, Repr

/-- Relevant settings (`config.py` defaults). -/
structure Settings where
  token_expiry_hours : ℚ := 24
  default_grant_duration_hours : ℚ := 8
  consent_timeout_seconds : ℚ := 60
deriving Repr

/-- The `grant_type_map.get(result, GrantType.TEMPORARY)` lookup. -/
def consentResultGrantType : ConsentResult → GrantType
  | .allow_once => .temporary
  | .allow_session => .session
  | .allow_timed => .timed
  | .allow_permanent => .permanent
  | .denied => .temporary

/-- Model of `ConsentHandler.__call__`, with the prompt dialog abstracted into its
`result`: on `DENIED` return `None` touching nothing; otherwise map the
result to a grant kind, pick the token duration (`TIMED` uses the default
grant duration, `PERMANENT` none, anything else `token_expiry_hours`), mint
the token, store the grant, and return the permissions and token. -/
def handlerCall (settings : Settings) (env : TokenEnv) (key : Nat) (now : ℚ)
    (client_id endpoint : String) (x_process_name : Option String)
    (result : ConsentResult) (s : Store) : Option (List String × String) × Store :=
  let client_name := x_process_name.getD "Unknown Application"
  let permissions := ["access"]
  if result = ConsentResult.denied then (none, s)
  else
    let grant_type := consentResultGrantType result
    let duration : Option ℚ :=
      if grant_type = GrantType.timed then some settings.default_grant_duration_hours
      else if grant_type = GrantType.permanent then none
      else some settings.token_expiry_hours
    let token := generateToken env key now client_id endpoint permissions duration
    let s1 := grantPermission now
      { client_id := client_id, endpoint := endpoint, permissions := permissions,
        grant_type := grant_type, token := token, client_name := some client_name,
        duration_hours := duration } s
    (some (permissions, token), s1)

/-! ## Statement helpers and concrete instances used by witnesses -/

/-- The `(client_id, endpoint)` uniqueness invariant of the `permissions`
table. -/
def atMostOnePerKey (s : Store) : Prop :=
  ∀ c e : String, (rowsFor c e s).length ≤ 1

/-- Expiry guard of `check_permission` stated as a boolean: the row survives
when its `expires_at` is null or not yet strictly elapsed. -/
def notElapsed (now : ℚ) : Option ℚ → Bool
  | none => true
  | some e => !(decide (now > e))

/-- Payload of the token minted for an `ALLOW_ONCE` consent: issued now,
expiring a full `token_expiry_hours` later. -/
def allowOnceTokenPayload (settings : Settings) (now : ℚ) (cid ep : String) : TokenPayload :=
  { client_id := cid, endpoint := ep, permissions := ["access"], issued_at := now,
    expires_at := some (now + settings.token_expiry_hours * 3600) }

/-- Fernet model whose decryption always fails (no ciphertext of interest). -/
def envDead : TokenEnv :=
  { enc := fun _ => "x", dec := fun _ => none }

/-- Payload with an expiry, for the round-trip witness. -/
def payloadW1 : TokenPayload :=
  { client_id := "c", endpoint := "/e", permissions := ["access"], issued_at := 0,
    expires_at := some (0 + 1 * 3600) }

/-- Payload without an expiry, for the round-trip witness. -/
def payloadW2 : TokenPayload :=
  { client_id := "c", endpoint := "/e", permissions := ["access"], issued_at := 0,
    expires_at := none }

/-- Fernet model distinguishing the two round-trip witness payloads. -/
def envW : TokenEnv :=
  { enc := fun p => if p.2.expires_at = none then "tk2" else "tk1",
    dec := fun s =>
      if s = "tk1" then some (7, payloadW1)
      else if s = "tk2" then some (7, payloadW2) else none }

/-- Fernet model for the mismatched-identity witness: `"tk"` decrypts under
key 3 to claims for client `"A"`. -/
def envC2 : TokenEnv :=
  { enc := fun _ => "tk",
    dec := fun s =>
      if s = "tk" then
        some (3, { client_id := "A", endpoint := "/e", permissions := ["access"],
                   issued_at := 0, expires_at := none })
      else none }

/-- Middleware of the mismatched-identity witness. -/
def cfgC2 : MiddlewareCfg := { key := 3, env := envC2, hash := fun s => s }

/-- Request presenting client `"B"`'s identity with client `"A"`'s token. -/
def reqC2 : Request :=
  { path := "/e", x_client_id := some "B", authorization := some "Bearer tk" }

/-- Stored row with an elapsed expiry, for the lazy-eviction input. -/
def rowC3 : Row :=
  { id := 1, client_id := "c", client_name := none, endpoint := "/e",
    permissions := "[\"read\"]", grant_type := "timed", granted_at := 0,
    expires_at := some 10, token := some "t" }

/-- Store holding only that elapsed row, with an empty audit log. -/
def storeC3 : Store := { next_id := 2, permissions := [rowC3], audit := [] }

/-- Persisted `SESSION` row (null `expires_at`), minted by a previous
process under key 1. -/
def rowSess : Row :=
  { id := 1, client_id := "c", client_name := some "App", endpoint := "/e",
    permissions := "[\"access\"]", grant_type := "session", granted_at := 0,
    expires_at := none, token := some "oldtok" }

/-- Database as reloaded by the restarted process. -/
def storeSess : Store := { next_id := 2, permissions := [rowSess], audit := [] }

/-- Fernet model across the restart: `"oldtok"` still decrypts to the old
key-1 ciphertext contents. -/
def envC4 : TokenEnv :=
  { enc := fun _ => "oldtok",
    dec := fun s =>
      if s = "oldtok" then
        some (1, { client_id := "c", endpoint := "/e", permissions := ["access"],
                   issued_at := 0, expires_at := none })
      else none }

/-- Middleware of the restarted process: freshly generated key 99. -/
def cfgC4 : MiddlewareCfg := { key := 99, env := envC4, hash := fun s => s }

/-- Request of the granted client after the restart, without a token. -/
def reqC4 : Request := { path := "/e", x_client_id := some "c" }

/-- The same request still presenting the pre-restart token. -/
def reqC4tok : Request :=
  { path := "/e", x_client_id := some "c", authorization := some "Bearer oldtok" }

/-- First grant call of the upsert witness. -/
def gW1 : GrantArgs :=
  { client_id := "c", endpoint := "/e", permissions := ["read"],
    grant_type := GrantType.temporary, token := "t1" }

/-- Second grant call of the upsert witness, same pair, different payload. -/
def gW2 : GrantArgs :=
  { client_id := "c", endpoint := "/e", permissions := ["read", "write"],
    grant_type := GrantType.permanent, token := "t2" }

/-- Fernet model for the scheme-case instances: `"tk"` decrypts under key 5
to claims for client `"B"`. -/
def envC7 : TokenEnv :=
  { enc := fun _ => "tk",
    dec := fun s =>
      if s = "tk" then
        some (5, { client_id := "B", endpoint := "/e", permissions := ["access"],
                   issued_at := 0, expires_at := none })
      else none }

/-- Middleware of the scheme-case instances. -/
def cfgC7 : MiddlewareCfg := { key := 5, env := envC7, hash := fun s => s }

/-- Request with the RFC-capitalised scheme. -/
def reqC7upper : Request :=
  { path := "/e", x_client_id := some "B", authorization := some "Bearer tk" }

/-- Identical request with a lower-case scheme token. -/
def reqC7lower : Request :=
  { path := "/e", x_client_id := some "B", authorization := some "bearer tk" }

/-- Grant call of the stored-pass instances. -/
def gW3 : GrantArgs :=
  { client_id := "c", endpoint := "/e", permissions := ["access"],
    grant_type := GrantType.permanent, token := "tok" }

/-- Middleware of the stored-pass instances (no token presented, so the
dead Fernet model suffices). -/
def cfgC8 : MiddlewareCfg := { key := 1, env := envDead, hash := fun s => s }

/-- Request of the granted client, bare of any bearer token. -/
def reqC8 : Request := { path := "/e", x_client_id := some "c" }

/-- Default settings (`token_expiry_hours = 24`). -/
def settingsW : Settings := {}

/-- Fernet model of the allow-once witness: `"tk"` decrypts under key 9 to
the allow-once payload of a one-hour-token configuration. -/
def envC9 : TokenEnv :=
  { enc := fun _ => "tk",
    dec := fun s =>
      if s = "tk" then
        some (9, allowOnceTokenPayload { token_expiry_hours := 1 } 0 "c" "/e")
      else none }

/-- Middleware of the allow-once witness. -/
def cfgC9 : MiddlewareCfg := { key := 9, env := envC9, hash := fun s => s }

/-- Request replaying the allow-once token. -/
def reqC9 : Request :=
  { path := "/e", x_client_id := some "c", authorization := some "Bearer tk" }

/-- Middleware of the malformed-PID witness. -/
def cfgC10 : MiddlewareCfg := { key := 1, env := envDead, hash := fun s => s }

/-- Request with no explicit client id and a non-numeric advertised PID. -/
def reqC10 : Request := { path := "/e", x_process_pid := some "abc" }

/-! ## Helper lemmas -/

theorem find_of_filter_not {α : Type} (p : α → Bool) (l : List α) :
    (l.filter fun a => !(p a)).find? p = none := by
  induction l with
  | nil => rfl
  | cons x l ih =>
    by_cases h : p x = true
    · simp [List.filter_cons, h, ih]
    · simp only [Bool.not_eq_true] at h
      simp [List.filter_cons, h, List.find?_cons, ih]

theorem filter_of_filter_not {α : Type} (p : α → Bool) (l : List α) :
    ((l.filter fun a => !(p a)).filter p) = [] := by
  induction l with
  | nil => rfl
  | cons x l ih =>
    by_cases h : p x = true
    · simp [List.filter_cons, h, ih]
    · simp only [Bool.not_eq_true] at h
      simp [List.filter_cons, h, ih]

theorem find_append_of_left_none {α : Type} {p : α → Bool} {l₁ : List α} (l₂ : List α)
    (h : l₁.find? p = none) : (l₁ ++ l₂).find? p = l₂.find? p := by
  induction l₁ with
  | nil => rfl
  | cons x l ih =>
    by_cases hx : p x = true
    · simp [List.find?_cons, hx] at h
    · simp only [List.find?_cons_of_neg, List.cons_append, hx, Bool.not_eq_true] at h ⊢
      exact ih h

theorem dispatch_nonpublic (cfg : MiddlewareCfg) (now : ℚ) (req : Request) (store : Store)
    (hpub : (cfg.publicPaths.contains req.path || pyStartsWith req.path "/public/") = false) :
    dispatch cfg now req store = nonPublicStep cfg now req store := by
  unfold dispatch
  rw [hpub]
  rfl

theorem grant_permissions_eq (now : ℚ) (g : GrantArgs) (s : Store) :
    (grantPermission now g s).permissions =
      s.permissions.filter (fun r => !(keyPred g.client_id g.endpoint r))
        ++ [grantRow now g s] := rfl

theorem keyPred_grantRow (now : ℚ) (g : GrantArgs) (s : Store) :
    keyPred g.client_id g.endpoint (grantRow now g s) = true := by
  simp [keyPred, grantRow]

theorem findRow_grant (now : ℚ) (g : GrantArgs) (s : Store) :
    findRow g.client_id g.endpoint (grantPermission now g s).permissions =
      some (grantRow now g s) := by
  rw [findRow, grant_permissions_eq,
    find_append_of_left_none _ (find_of_filter_not (keyPred g.client_id g.endpoint) _)]
  simp [List.find?_cons, keyPred_grantRow]

theorem rowsFor_grant (now : ℚ) (g : GrantArgs) (s : Store) :
    rowsFor g.client_id g.endpoint (grantPermission now g s) = [grantRow now g s] := by
  rw [rowsFor]
  show ((s.permissions.filter fun r => !(keyPred g.client_id g.endpoint r))
      ++ [grantRow now g s]).filter (keyPred g.client_id g.endpoint) = _
  rw [List.filter_append, filter_of_filter_not]
  simp [keyPred_grantRow]

theorem checkPermission_grant_notElapsed (tg now : ℚ) (g : GrantArgs) (s : Store)
    (hexp : notElapsed now (grantExpiresAt tg g.grant_type g.duration_hours) = true) :
    checkPermission now g.client_id g.endpoint (grantPermission tg g s) =
      (some (grantRow tg g s), grantPermission tg g s) := by
  rw [checkPermission, findRow_grant]
  cases hgea : grantExpiresAt tg g.grant_type g.duration_hours with
  | none =>
    have hx : (grantRow tg g s).expires_at = none := by
      rw [show (grantRow tg g s).expires_at
            = grantExpiresAt tg g.grant_type g.duration_hours from rfl, hgea]
    simp [hx]
  | some e2 =>
    have hx : (grantRow tg g s).expires_at = some e2 := by
      rw [show (grantRow tg g s).expires_at
            = grantExpiresAt tg g.grant_type g.duration_hours from rfl, hgea]
    rw [hgea] at hexp
    simp only [notElapsed, Bool.not_eq_true', decide_eq_false_iff_not] at hexp
    simp [hx, hexp]

/-! ## Claims -/

/-- C1.  Token round trip: minting a token for `(client_id, endpoint,
permissions)` with a positive `expires_in_hours` and validating it under the
same key before `issued_at + hours * 3600` has elapsed returns exactly the
minted claims, whose `expires_at` is `issued_at + hours * 3600`; with a null
duration the claims come back with a null `expires_at` at any validation
time.  The Fernet round trip `decrypt (encrypt x) = x` is a hypothesis of
the crypto model. -/
theorem tokens_validate_generate_roundtrip
    (env : TokenEnv) (key : Nat) (now t hours : ℚ) (cid ep : String) (perms : List String)
    (_hpos : 0 < hours)
    (hdec1 : env.dec (generateToken env key now cid ep perms (some hours)) =
      some (key, { client_id := cid, endpoint := ep, permissions := perms,
                   issued_at := now, expires_at := some (now + hours * 3600) }))
    (hdec2 : env.dec (generateToken env key now cid ep perms none) =
      some (key, { client_id := cid, endpoint := ep, permissions := perms,
                   issued_at := now, expires_at := none }))
    (ht : t ≤ now + hours * 3600) :
    validateToken env key t (generateToken env key now cid ep perms (some hours)) =
      some { client_id := cid, endpoint := ep, permissions := perms,
             issued_at := now, expires_at := some (now + hours * 3600) }
    ∧ validateToken env key t (generateToken env key now cid ep perms none) =
      some { client_id := cid, endpoint := ep, permissions := perms,
             issued_at := now, expires_at := none } := by
  constructor
  · rw [validateToken, hdec1]
    simp [not_lt.mpr ht]
  · rw [validateToken, hdec2]
    simp

/-- Witness for C1 at a concrete key, clock and claim set. -/
theorem tokens_validate_generate_roundtrip_witness :
    validateToken envW 7 100 (generateToken envW 7 0 "c" "/e" ["access"] (some 1)) =
      some { client_id := "c", endpoint := "/e", permissions := ["access"],
             issued_at := 0, expires_at := some (0 + 1 * 3600) }
    ∧ validateToken envW 7 100 (generateToken envW 7 0 "c" "/e" ["access"] none) =
      some { client_id := "c", endpoint := "/e", permissions := ["access"],
             issued_at := 0, expires_at := none } :=
  tokens_validate_generate_roundtrip envW 7 0 100 1 "c" "/e" ["access"]
    (by norm_num) rfl rfl (by norm_num)

/-- C5.  Denial atomicity: a consent invocation whose prompt result is
`DENIED` returns the not-approved result `None` and leaves the database
untouched — no permission row is inserted or updated, no token is minted,
and no audit entry is appended. -/
theorem consent_denied_writes_nothing
    (settings : Settings) (env : TokenEnv) (key : Nat) (now : ℚ)
    (cid ep : String) (pname : Option String) (s : Store) :
    handlerCall settings env key now cid ep pname ConsentResult.denied s = (none, s) := by
  simp [handlerCall]

/-- C3, counterexample.  Lazy eviction is not audit-silent: checking the
elapsed row of `storeC3` deletes it and returns null, but the audit log is
changed (a `revoke` entry is appended), refuting the claim that the check
leaves the audit log unchanged. -/
theorem check_permission_lazy_eviction_audit_cex :
    (checkPermission 20 "c" "/e" storeC3).1 = none
    ∧ (checkPermission 20 "c" "/e" storeC3).2.permissions = []
    ∧ ¬ (checkPermission 20 "c" "/e" storeC3).2.audit = storeC3.audit := by
  refine ⟨rfl, rfl, ?_⟩
  decide

/-- C3, amended.  Lazy eviction audits as a revocation: when the stored row
for `(client_id, endpoint)` has a non-null elapsed `expires_at`,
`check_permission` deletes the row, returns null, and appends exactly one
`revoke` audit entry (it reuses `revoke_permission`, so the audit log grows
by that entry rather than staying unchanged). -/
theorem check_permission_lazy_eviction_appends_revoke
    (now : ℚ) (c e : String) (s : Store) (row : Row) (texp : ℚ)
    (hfind : findRow c e s.permissions = some row)
    (hexp : row.expires_at = some texp)
    (hlt : texp < now) :
    checkPermission now c e s =
      (none,
       { s with permissions := s.permissions.filter (fun r => !(keyPred c e r)),
                audit := s.audit ++ [{ timestamp := now, client_id := c, endpoint := e,
                                       action := "revoke", details := emptyDetails }] }) := by
  simp only [checkPermission, hfind, hexp]
  rw [if_pos hlt]
  rfl

/-- Witness for C3's amended statement at the concrete elapsed row. -/
theorem check_permission_lazy_eviction_appends_revoke_witness :
    checkPermission 20 "c" "/e" storeC3 =
      (none,
       { storeC3 with
           permissions := storeC3.permissions.filter (fun r => !(keyPred "c" "/e" r)),
           audit := storeC3.audit ++ [{ timestamp := 20, client_id := "c", endpoint := "/e",
                                        action := "revoke", details := emptyDetails }] }) :=
  check_permission_lazy_eviction_appends_revoke 20 "c" "/e" storeC3 rowC3 10 rfl rfl
    (by norm_num)

/-- C4.  Evaluation of the code at the failing input: after a restart with a
freshly generated secret key (key 99, while the persisted `SESSION` row and
its token were produced under key 1), a request from the granted
`(client_id, endpoint)` pair is still admitted via `STORE_PASS` — both
without a token and when replaying the stale token — because the
stored-grant check never consults the secret key.  This contradicts the
claim that such a grant is never honored after the restart. -/
theorem session_grant_honored_after_key_rotation :
    dispatch cfgC4 5 reqC4 storeSess =
      Except.ok (Outcome.storePass "c" (PyVal.str "[\"access\"]"), storeSess)
    ∧ dispatch cfgC4 5 reqC4tok storeSess =
      Except.ok (Outcome.storePass "c" (PyVal.str "[\"access\"]"), storeSess) :=
  ⟨rfl, rfl⟩

theorem rowsFor_grant_other (now : ℚ) (g : GrantArgs) (s : Store) (c e : String)
    (h : keyPred c e (grantRow now g s) = false) :
    rowsFor c e (grantPermission now g s) =
      (s.permissions.filter fun r => !(keyPred g.client_id g.endpoint r)).filter
        (keyPred c e) := by
  rw [rowsFor]
  show ((s.permissions.filter fun r => !(keyPred g.client_id g.endpoint r))
      ++ [grantRow now g s]).filter (keyPred c e) = _
  rw [List.filter_append]
  simp [h]

theorem grant_preserves_atMostOne (now : ℚ) (g : GrantArgs) (s : Store)
    (hs : atMostOnePerKey s) : atMostOnePerKey (grantPermission now g s) := by
  intro c e
  cases hb : keyPred c e (grantRow now g s) with
  | true =>
    have hc : g.client_id = c ∧ g.endpoint = e := by
      simpa [keyPred, grantRow] using hb
    obtain ⟨hc1, hc2⟩ := hc
    subst hc1; subst hc2
    rw [rowsFor_grant]
    exact Nat.le_refl 1
  | false =>
    rw [rowsFor_grant_other now g s c e hb]
    calc ((s.permissions.filter fun r => !(keyPred g.client_id g.endpoint r)).filter
            (keyPred c e)).length
        ≤ (s.permissions.filter (keyPred c e)).length :=
          ((List.filter_sublist _).filter (keyPred c e)).length_le
      _ ≤ 1 := hs c e

theorem foldl_grant_preserves_atMostOne (calls : List (ℚ × GrantArgs)) (s : Store)
    (hs : atMostOnePerKey s) :
    atMostOnePerKey (calls.foldl (fun st c => grantPermission c.1 c.2 st) s) := by
  induction calls generalizing s with
  | nil => exact hs
  | cons c calls ih =>
    exact ih (grantPermission c.1 c.2 s) (grant_preserves_atMostOne c.1 c.2 s hs)

theorem emptyStore_atMostOne : atMostOnePerKey emptyStore := by
  intro c e
  simp [rowsFor, emptyStore]

/-- C6.  Upsert uniqueness: starting from the freshly created table, any
sequence of `grant_permission` calls leaves at most one row per
`(client_id, endpoint)`; and after two successive grants for the same pair,
exactly the single row of the second call remains — carrying the second
call's token, grant type and (JSON-encoded) permission list. -/
theorem grant_upsert_uniqueness
    (calls : List (ℚ × GrantArgs)) (s : Store) (t1 t2 : ℚ) (g1 g2 : GrantArgs)
    (_hc : g1.client_id = g2.client_id) (_he : g1.endpoint = g2.endpoint) :
    atMostOnePerKey (calls.foldl (fun st c => grantPermission c.1 c.2 st) emptyStore)
    ∧ rowsFor g2.client_id g2.endpoint
        (grantPermission t2 g2 (grantPermission t1 g1 s)) =
        [grantRow t2 g2 (grantPermission t1 g1 s)]
    ∧ (grantRow t2 g2 (grantPermission t1 g1 s)).token = some g2.token
    ∧ (grantRow t2 g2 (grantPermission t1 g1 s)).grant_type = g2.grant_type.value
    ∧ (grantRow t2 g2 (grantPermission t1 g1 s)).permissions =
        pyJsonDumpsStrList g2.permissions :=
  ⟨foldl_grant_preserves_atMostOne calls emptyStore emptyStore_atMostOne,
   rowsFor_grant t2 g2 (grantPermission t1 g1 s), rfl, rfl, rfl⟩

/-- Witness for C6 at two concrete same-pair grants. -/
theorem grant_upsert_uniqueness_witness :
    atMostOnePerKey ([((3 : ℚ), gW1), ((7 : ℚ), gW2)].foldl
        (fun st c => grantPermission c.1 c.2 st) emptyStore)
    ∧ rowsFor gW2.client_id gW2.endpoint
        (grantPermission 7 gW2 (grantPermission 3 gW1 emptyStore)) =
        [grantRow 7 gW2 (grantPermission 3 gW1 emptyStore)]
    ∧ (grantRow 7 gW2 (grantPermission 3 gW1 emptyStore)).token = some gW2.token
    ∧ (grantRow 7 gW2 (grantPermission 3 gW1 emptyStore)).grant_type = gW2.grant_type.value
    ∧ (grantRow 7 gW2 (grantPermission 3 gW1 emptyStore)).permissions =
        pyJsonDumpsStrList gW2.permissions :=
  grant_upsert_uniqueness [((3 : ℚ), gW1), ((7 : ℚ), gW2)] emptyStore 3 7 gW1 gW2 rfl rfl

/-- C2.  Mismatched-identity bearer tokens are treated as absent: when the
request's bearer token validates to claims whose `client_id` differs from
the derived identity, the middleware neither passes nor errors on the token
but continues with the stored-grant step, and its overall result is exactly
that of the same request with the `Authorization` header removed. -/
theorem middleware_mismatched_token_ignored
    (cfg : MiddlewareCfg) (now : ℚ) (req : Request) (store : Store) (cid : String)
    (p : TokenPayload)
    (hpub : (cfg.publicPaths.contains req.path || pyStartsWith req.path "/public/") = false)
    (hid : identifyClient cfg req = Except.ok cid)
    (hval : validateToken cfg.env cfg.key now (pyDrop (req.authorization.getD "") 7) = some p)
    (hmm : p.client_id ≠ cid) :
    dispatch cfg now req store = storeStep cfg now cid req.path req.x_process_name store
    ∧ dispatch cfg now req store
        = dispatch cfg now { req with authorization := none } store := by
  have hidEq : identifyClient cfg { req with authorization := none } = Except.ok cid := hid
  have h1 : dispatch cfg now req store
      = storeStep cfg now cid req.path req.x_process_name store := by
    rw [dispatch_nonpublic cfg now req store hpub]
    unfold nonPublicStep
    cases hb : pyStartsWith (req.authorization.getD "") "Bearer " with
    | true => simp [hid, bearerPayload, hb, hval, hmm]
    | false => simp [hid, bearerPayload, hb]
  have h2 : dispatch cfg now { req with authorization := none } store
      = storeStep cfg now cid req.path req.x_process_name store := by
    rw [dispatch_nonpublic cfg now { req with authorization := none } store hpub]
    unfold nonPublicStep
    simp [hidEq, bearerPayload, show pyStartsWith "" "Bearer " = false from rfl]
  exact ⟨h1, h1.trans h2.symm⟩

/-- Witness for C2: client `"B"` presenting client `"A"`'s valid token. -/
theorem middleware_mismatched_token_ignored_witness :
    dispatch cfgC2 0 reqC2 emptyStore
      = storeStep cfgC2 0 "B" reqC2.path reqC2.x_process_name emptyStore
    ∧ dispatch cfgC2 0 reqC2 emptyStore
      = dispatch cfgC2 0 { reqC2 with authorization := none } emptyStore :=
  middleware_mismatched_token_ignored cfgC2 0 reqC2 emptyStore "B"
    { client_id := "A", endpoint := "/e", permissions := ["access"],
      issued_at := 0, expires_at := none }
    rfl rfl rfl (by decide)

/-- C7, counterexample.  The scheme token is matched case-sensitively: with
the same valid token for the derived client, `"Authorization: Bearer tk"`
yields `TOKEN_PASS` while the identical request with `"bearer tk"` is
denied (the token is never extracted), refuting the claim that any
capitalization of the scheme is treated alike. -/
theorem bearer_scheme_lowercase_cex :
    dispatch cfgC7 0 reqC7upper emptyStore
      = Except.ok (Outcome.tokenPass "B" (PyVal.list ["access"]), emptyStore)
    ∧ dispatch cfgC7 0 reqC7lower emptyStore
      = Except.ok (Outcome.deny "B" "/e", emptyStore) :=
  ⟨rfl, rfl⟩

/-- C7, amended.  Bearer scheme parsing is case-sensitive: an
`Authorization` value that does not start with the exact prefix
`"Bearer "` (for example `"bearer <t>"` or `"BEARER <t>"`) is treated
exactly as if no `Authorization` header had been presented. -/
theorem bearer_scheme_case_sensitive
    (cfg : MiddlewareCfg) (now : ℚ) (req : Request) (store : Store) (a : String)
    (hauth : req.authorization = some a)
    (hnb : pyStartsWith a "Bearer " = false) :
    dispatch cfg now req store
      = dispatch cfg now { req with authorization := none } store := by
  cases hpub : (cfg.publicPaths.contains req.path || pyStartsWith req.path "/public/") with
  | true =>
    unfold dispatch
    dsimp only
    rw [hpub]
    rfl
  | false =>
    rw [dispatch_nonpublic cfg now req store hpub,
      dispatch_nonpublic cfg now { req with authorization := none } store hpub]
    unfold nonPublicStep
    have hidEq : identifyClient cfg { req with authorization := none }
        = identifyClient cfg req := rfl
    rw [hidEq]
    cases hcid : identifyClient cfg req with
    | error e => simp [hcid]
    | ok cid =>
      simp [hcid, bearerPayload, hauth, hnb,
        show pyStartsWith "" "Bearer " = false from rfl]

/-- Witness for C7's amended statement at the lower-case-scheme request. -/
theorem bearer_scheme_case_sensitive_witness :
    dispatch cfgC7 0 reqC7lower emptyStore
      = dispatch cfgC7 0 { reqC7lower with authorization := none } emptyStore :=
  bearer_scheme_case_sensitive cfgC7 0 reqC7lower emptyStore "bearer tk" rfl rfl

/-- C8, counterexample.  A request admitted via the stored grant for
`("c", "/e")` — granted with the permission list `["access"]` — has the raw
column text `"[\"access\"]"` attached as its permissions, and that string
value is not the list value `["access"]` that was passed to
`grant_permission` (and that a `TOKEN_PASS` would attach), refuting the
claim. -/
theorem store_pass_attaches_json_text_cex :
    dispatch cfgC8 50 reqC8 (grantPermission 0 gW3 emptyStore)
      = Except.ok (Outcome.storePass "c" (PyVal.str "[\"access\"]"),
                   grantPermission 0 gW3 emptyStore)
    ∧ PyVal.str "[\"access\"]" ≠ PyVal.list ["access"] :=
  ⟨rfl, by decide⟩

/-- C8, amended.  A stored-grant pass attaches the raw JSON text of the
granted permission list: for every request admitted via `STORE_PASS` for a
grant made with permission list `perms`, the attached value is the string
`json.dumps(perms)` (the undecoded `permissions` column), not the list of
strings itself. -/
theorem store_pass_attaches_json_text
    (cfg : MiddlewareCfg) (tg now : ℚ) (req : Request) (g : GrantArgs) (s : Store)
    (hpub : (cfg.publicPaths.contains req.path || pyStartsWith req.path "/public/") = false)
    (hid : identifyClient cfg req = Except.ok g.client_id)
    (hpath : req.path = g.endpoint)
    (hauth : req.authorization = none)
    (hexp : notElapsed now (grantExpiresAt tg g.grant_type g.duration_hours) = true) :
    dispatch cfg now req (grantPermission tg g s) =
      Except.ok (Outcome.storePass g.client_id (PyVal.str (pyJsonDumpsStrList g.permissions)),
                 grantPermission tg g s) := by
  rw [dispatch_nonpublic cfg now req _ hpub]
  unfold nonPublicStep
  simp only [hid, hauth]
  simp only [bearerPayload, show pyStartsWith "" "Bearer " = false from rfl,
    Bool.false_eq_true, if_false, Option.getD_none]
  rw [hpath]
  unfold storeStep
  rw [checkPermission_grant_notElapsed tg now g s hexp]
  rfl

/-- Witness for C8's amended statement at the concrete permanent grant. -/
theorem store_pass_attaches_json_text_witness :
    dispatch cfgC8 50 reqC8 (grantPermission 0 gW3 emptyStore) =
      Except.ok (Outcome.storePass "c" (PyVal.str (pyJsonDumpsStrList ["access"])),
                 grantPermission 0 gW3 emptyStore) :=
  store_pass_attaches_json_text cfgC8 0 50 reqC8 gW3 emptyStore rfl rfl rfl rfl rfl

/-- C9.  An `ALLOW_ONCE` consent yields a long-lived bearer token: the
handler returns a token whose claims expire `token_expiry_hours` after
issuance while the stored `TEMPORARY` row expires after 5 minutes; and at
any later time `t` — in particular after the 5-minute grant is already
eligible for eviction — a request replaying that token is admitted via
`TOKEN_PASS` as long as `t` has not passed the token's expiry. -/
theorem allow_once_token_outlives_grant
    (settings : Settings) (cfg : MiddlewareCfg) (now t : ℚ)
    (cid ep : String) (pname : Option String) (s0 : Store) (req : Request) (a : String)
    (hdec : cfg.env.dec (cfg.env.enc (cfg.key, allowOnceTokenPayload settings now cid ep)) =
      some (cfg.key, allowOnceTokenPayload settings now cid ep))
    (hpub : (cfg.publicPaths.contains req.path || pyStartsWith req.path "/public/") = false)
    (hid : identifyClient cfg req = Except.ok cid)
    (hauth : req.authorization = some a)
    (hstart : pyStartsWith a "Bearer " = true)
    (hdrop : pyDrop a 7 = cfg.env.enc (cfg.key, allowOnceTokenPayload settings now cid ep))
    (_hgrant : now + 5 * 60 < t)
    (htok : ¬ t > now + settings.token_expiry_hours * 3600) :
    (handlerCall settings cfg.env cfg.key now cid ep pname ConsentResult.allow_once s0).1 =
      some (["access"], cfg.env.enc (cfg.key, allowOnceTokenPayload settings now cid ep))
    ∧ (findRow cid ep
        (handlerCall settings cfg.env cfg.key now cid ep pname
          ConsentResult.allow_once s0).2.permissions).map Row.expires_at =
      some (some (now + 5 * 60))
    ∧ dispatch cfg t req
        (handlerCall settings cfg.env cfg.key now cid ep pname
          ConsentResult.allow_once s0).2 =
      Except.ok (Outcome.tokenPass cid (PyVal.list ["access"]),
        (handlerCall settings cfg.env cfg.key now cid ep pname
          ConsentResult.allow_once s0).2) := by
  refine ⟨rfl, ?_, ?_⟩
  · have h2 := findRow_grant now
      { client_id := cid, endpoint := ep, permissions := ["access"],
        grant_type := GrantType.temporary,
        token := cfg.env.enc (cfg.key, allowOnceTokenPayload settings now cid ep),
        client_name := some (pname.getD "Unknown Application"),
        duration_hours := some settings.token_expiry_hours } s0
    rw [show findRow cid ep
        (handlerCall settings cfg.env cfg.key now cid ep pname
          ConsentResult.allow_once s0).2.permissions =
        some (grantRow now
          { client_id := cid, endpoint := ep, permissions := ["access"],
            grant_type := GrantType.temporary,
            token := cfg.env.enc (cfg.key, allowOnceTokenPayload settings now cid ep),
            client_name := some (pname.getD "Unknown Application"),
            duration_hours := some settings.token_expiry_hours } s0) from h2]
    rfl
  · rw [dispatch_nonpublic cfg t req _ hpub]
    unfold nonPublicStep
    simp only [hid]
    have hbp : bearerPayload cfg t (req.authorization.getD "") =
        some (allowOnceTokenPayload settings now cid ep) := by
      rw [hauth]
      unfold bearerPayload
      simp only [Option.getD_some]
      rw [if_pos hstart, hdrop]
      unfold validateToken
      rw [hdec]
      simp [allowOnceTokenPayload, htok]
    simp [hbp, allowOnceTokenPayload]

/-- Witness for C9: a one-hour-token configuration exercised at `t = 1000`
seconds, after the 5-minute store expiry and before the token expiry. -/
theorem allow_once_token_outlives_grant_witness :
    (handlerCall { token_expiry_hours := 1 } cfgC9.env cfgC9.key 0 "c" "/e" none
        ConsentResult.allow_once emptyStore).1 =
      some (["access"],
        cfgC9.env.enc (cfgC9.key, allowOnceTokenPayload { token_expiry_hours := 1 } 0 "c" "/e"))
    ∧ (findRow "c" "/e"
        (handlerCall { token_expiry_hours := 1 } cfgC9.env cfgC9.key 0 "c" "/e" none
          ConsentResult.allow_once emptyStore).2.permissions).map Row.expires_at =
      some (some (0 + 5 * 60))
    ∧ dispatch cfgC9 1000 reqC9
        (handlerCall { token_expiry_hours := 1 } cfgC9.env cfgC9.key 0 "c" "/e" none
          ConsentResult.allow_once emptyStore).2 =
      Except.ok (Outcome.tokenPass "c" (PyVal.list ["access"]),
        (handlerCall { token_expiry_hours := 1 } cfgC9.env cfgC9.key 0 "c" "/e" none
          ConsentResult.allow_once emptyStore).2) :=
  allow_once_token_outlives_grant { token_expiry_hours := 1 } cfgC9 0 1000 "c" "/e" none
    emptyStore reqC9 "Bearer tk" rfl rfl rfl rfl rfl rfl (by norm_num) (by norm_num)

/-- C10.  Client identification is not total: a request to a non-public
path with no `X-Client-ID` header and a truthy non-decimal `X-Process-PID`
header makes `_identify_client` raise `ValueError` from `int()`, so the
middleware produces neither a pass state nor the documented 401 body. -/
theorem identify_client_bad_pid_raises
    (cfg : MiddlewareCfg) (now : ℚ) (req : Request) (store : Store) (ps : String)
    (hpub : (cfg.publicPaths.contains req.path || pyStartsWith req.path "/public/") = false)
    (hnocid : req.x_client_id = none)
    (hpid : req.x_process_pid = some ps)
    (hne : ps ≠ "")
    (hbad : pyInt ps = none) :
    dispatch cfg now req store = Except.error "ValueError" := by
  rw [dispatch_nonpublic cfg now req store hpub]
  unfold nonPublicStep
  have hide : identifyClient cfg req = Except.error "ValueError" := by
    unfold identifyClient
    simp only [hnocid]
    unfold identifyByProcess
    simp only [hpid]
    rw [if_neg hne]
    simp [hbad]
  simp [hide]

/-- Witness for C10 at `X-Process-PID: abc`. -/
theorem identify_client_bad_pid_raises_witness :
    dispatch cfgC10 0 reqC10 emptyStore = Except.error "ValueError" :=
  identify_client_bad_pid_raises cfgC10 0 reqC10 emptyStore "abc" rfl rfl rfl
    (by decide) rfl

end LocalGhost
